import Mathlib

/-!
# Verification of the 249Sudan e-learning core (quiz grading and progress tracking)

Shallow embedding of the course-service operations of `app/courses/services.py`
(`enroll_user`, `update_lesson_progress`, `submit_quiz`,
`_update_enrollment_progress`) and of the `POST /lessons/{uuid}/complete`
route of `app/courses/router.py`, over an explicit relational state `DB`
mirroring `app/courses/models.py`.

Conventions:
* Each SQLAlchemy query becomes a lookup/count over the corresponding list of
  rows in `DB`; `db.commit()` points become explicit state snapshots
  (`submit_quiz_committed_states` lists the states `submit_quiz` commits).
* SQLAlchemy result-consumption semantics are modelled faithfully: a first
  `Result.scalar()` yields the value and closes the result set, and a second
  `.scalar()` on the same `Result` raises `ResourceClosedError`, surfaced as
  a 500 with detail "This result object is closed".  `submit_quiz` re-reads
  `attempt_count.scalar()` at services.py line 395, so every submission that
  passes the attempt-limit check errors there, before any attempt row is
  created or committed.
* `datetime.utcnow()` is an abstract tick `now : Nat` passed to the operation.
* Numeric SQL `Decimal`/float score arithmetic is modelled exactly with `Rat`;
  integer columns with `Nat`/`Int`.
* `raise HTTPException(status, detail)` becomes `Except.error ⟨status, detail⟩`;
  an SQLAlchemy `scalar_one()` miss (`NoResultFound`, surfaced as a 500)
  becomes `Except.error ⟨500, "No row was found when one was required"⟩`.
* Python truthiness tests on integers (`if course.enrollment_limit:`,
  `if response_data.selected_answer_id:`) are modelled faithfully: `none` and
  `some 0` are falsy.
-/

set_option linter.all false

deriving instance DecidableEq for Except

namespace Sudan

/-- Model of `fastapi.HTTPException`: an HTTP status code plus detail text. -/
structure ApiError where
  status : Nat
  detail : String
deriving DecidableEq, Repr

/-- Row of `courses` (only the columns the verified operations read). -/
structure Course where
  id : Nat
  enrollment_limit : Option Nat
deriving DecidableEq, Repr

/-- Row of `modules`. -/
structure Module where
  id : Nat
  course_id : Nat
  is_published : Bool
deriving DecidableEq, Repr

/-- Row of `lessons`. -/
structure Lesson where
  id : Nat
  uuid : Nat
  module_id : Nat
  is_published : Bool
deriving DecidableEq, Repr

/-- Row of `enrollments`. -/
structure Enrollment where
  id : Nat
  student_id : Nat
  course_id : Nat
  status : String
  progress_percentage : Rat
  is_active : Bool
  started_at : Option Nat
  completed_at : Option Nat
deriving DecidableEq, Repr

/-- Row of `lesson_progress`. -/
structure LessonProgress where
  id : Nat
  enrollment_id : Nat
  lesson_id : Nat
  last_position : Nat
  time_spent_seconds : Nat
  notes : Option String
  is_completed : Bool
  completed_at : Option Nat
deriving DecidableEq, Repr

/-- Row of `quizzes`. -/
structure Quiz where
  id : Nat
  course_id : Nat
  passing_score : Int
  max_attempts : Nat
  is_published : Bool
  available_from : Option Nat
  available_until : Option Nat
deriving DecidableEq, Repr

/-- Row of `answers` (embedded in its question, mirroring
`selectinload(Question.answers)`). -/
structure Answer where
  id : Nat
  is_correct : Bool
deriving DecidableEq, Repr

/-- Row of `questions` with its answers. -/
structure Question where
  id : Nat
  quiz_id : Nat
  question_type : String
  points : Nat
  answers : List Answer
deriving DecidableEq, Repr

/-- Row of `quiz_attempts`. -/
structure QuizAttempt where
  id : Nat
  quiz_id : Nat
  student_id : Nat
  enrollment_id : Nat
  attempt_number : Nat
  completed_at : Option Nat
  score : Option Rat
  passed : Bool
deriving DecidableEq, Repr

/-- Row of `question_responses`. -/
structure QuestionResponse where
  id : Nat
  attempt_id : Nat
  question_id : Nat
  selected_answer_id : Option Nat
  text_response : Option String
  points_earned : Rat
  is_correct : Option Bool
deriving DecidableEq, Repr

/-- One item of the `QuizSubmission.responses` request schema. -/
structure QuizAttemptResponse where
  question_id : Nat
  selected_answer_id : Option Nat
  text_response : Option String
deriving DecidableEq, Repr

/-- The `QuizSubmission` request schema. -/
structure QuizSubmission where
  quiz_id : Nat
  responses : List QuizAttemptResponse
deriving DecidableEq, Repr

/-- The `LessonProgressUpdate` request schema with pydantic's
`exclude_unset` semantics: an outer `none` means the client did not send the
field at all (so the stored value is kept); for `notes` the inner `Option`
is the nullable column value itself. -/
structure LessonProgressUpdate where
  last_position : Option Nat
  time_spent_seconds : Option Nat
  notes : Option (Option String)
deriving DecidableEq, Repr

/-- The relational state: one list of rows per table used by the core. -/
structure DB where
  courses : List Course
  modules : List Module
  lessons : List Lesson
  enrollments : List Enrollment
  lesson_progress : List LessonProgress
  quizzes : List Quiz
  questions : List Question
  attempts : List QuizAttempt
  responses : List QuestionResponse
deriving DecidableEq, Repr

/-- Fresh autoincrement primary key: one more than the largest id in use. -/
def nextId (ids : List Nat) : Nat := ids.foldr max 0 + 1

def DB.findCourse (db : DB) (cid : Nat) : Option Course :=
  db.courses.find? (·.id == cid)

def DB.findModule (db : DB) (mid : Nat) : Option Module :=
  db.modules.find? (·.id == mid)

def DB.findLesson (db : DB) (lid : Nat) : Option Lesson :=
  db.lessons.find? (·.id == lid)

def DB.findLessonByUuid (db : DB) (u : Nat) : Option Lesson :=
  db.lessons.find? (·.uuid == u)

def DB.findEnrollment (db : DB) (eid : Nat) : Option Enrollment :=
  db.enrollments.find? (·.id == eid)

/-- Query `SELECT enrollment WHERE student_id=.. AND course_id=.. AND is_active`. -/
def DB.activeEnrollment (db : DB) (uid cid : Nat) : Option Enrollment :=
  db.enrollments.find? (fun e => e.student_id == uid && e.course_id == cid && e.is_active)

/-- Query `SELECT enrollment WHERE student_id=.. AND course_id=..` (any active flag),
the duplicate check of `enroll_user`. -/
def DB.anyEnrollment (db : DB) (uid cid : Nat) : Option Enrollment :=
  db.enrollments.find? (fun e => e.student_id == uid && e.course_id == cid)

/-- Query `SELECT count(*) FROM enrollments WHERE course_id=.. AND is_active`. -/
def DB.activeEnrollmentCount (db : DB) (cid : Nat) : Nat :=
  (db.enrollments.filter (fun e => e.course_id == cid && e.is_active)).length

def DB.findQuiz (db : DB) (qid : Nat) : Option Quiz :=
  db.quizzes.find? (·.id == qid)

/-- The per-response question fetch of `submit_quiz`: a *global* lookup by id,
not restricted to the submitted quiz (exactly as
`select(Question).where(Question.id == response_data.question_id)`). -/
def DB.findQuestion (db : DB) (qid : Nat) : Option Question :=
  db.questions.find? (·.id == qid)

/-- Query `SELECT count(*) FROM quiz_attempts WHERE quiz_id=.. AND student_id=..`. -/
def DB.attemptCount (db : DB) (qid uid : Nat) : Nat :=
  (db.attempts.filter (fun a => a.quiz_id == qid && a.student_id == uid)).length

/-- Query `SELECT lesson_progress WHERE enrollment_id=.. AND lesson_id=..`. -/
def DB.findProgress (db : DB) (eid lid : Nat) : Option LessonProgress :=
  db.lesson_progress.find? (fun p => p.enrollment_id == eid && p.lesson_id == lid)

/-- Status code of an error result, `none` on success. -/
def errStatus {α : Type} : Except ApiError α → Option Nat
  | .error e => some e.status
  | .ok _ => none

/-- Whether a service call succeeded. -/
def isOkE {α : Type} : Except ApiError α → Bool
  | .error _ => false
  | .ok _ => true

/-! Embedding of `CourseService.enroll_user` (services.py lines 196-229) -/

/-- Service `CourseService.enroll_user`.  Mirrors the source line by line: duplicate
check on any (student, course) row; then `if course.enrollment_limit:`
(Python truthiness, so `None` and `0` both skip the capacity check) with
`count >= limit` rejection; otherwise a fresh row with the model defaults
`status="enrolled"`, `progress_percentage=0`, `is_active=True`. -/
def enroll_user (db : DB) (user_id course_id : Nat) :
    Except ApiError (DB × Enrollment) :=
  match db.anyEnrollment user_id course_id with
  | some _ => .error ⟨400, "Already enrolled in this course"⟩
  | none =>
    match db.findCourse course_id with
    | none => .error ⟨404, "Course not found"⟩
    | some course =>
      let limitReached : Bool :=
        match course.enrollment_limit with
        | some l => l != 0 && decide (db.activeEnrollmentCount course_id ≥ l)
        | none => false
      if limitReached then
        .error ⟨400, "Course enrollment limit reached"⟩
      else
        let e : Enrollment :=
          { id := nextId (db.enrollments.map (·.id))
            student_id := user_id
            course_id := course_id
            status := "enrolled"
            progress_percentage := 0
            is_active := true
            started_at := none
            completed_at := none }
        .ok ({ db with enrollments := db.enrollments ++ [e] }, e)

/-! Embedding of `CourseService._update_enrollment_progress` (services.py lines 593-652) -/

/-- A lesson counted by the progress denominator: itself published and its
module (joined on `module_id`) published and belonging to the course. -/
def eligibleLessonB (db : DB) (cid : Nat) (l : Lesson) : Bool :=
  l.is_published &&
    match db.findModule l.module_id with
    | some m => m.course_id == cid && m.is_published
    | none => false

/-- Count `total_lessons` of `_update_enrollment_progress`. -/
def totalEligible (db : DB) (cid : Nat) : Nat :=
  (db.lessons.filter (eligibleLessonB db cid)).length

/-- Predicate of the `completed_lessons` count: a completed progress row of
the enrollment whose (joined) lesson is eligible in the course. -/
def completedPred (db : DB) (eid cid : Nat) (p : LessonProgress) : Bool :=
  p.enrollment_id == eid && p.is_completed &&
    match db.findLesson p.lesson_id with
    | some l => eligibleLessonB db cid l
    | none => false

/-- Count `completed_lessons` of `_update_enrollment_progress`. -/
def completedEligible (db : DB) (eid cid : Nat) : Nat :=
  (db.lesson_progress.filter (completedPred db eid cid)).length

/-- The percentage `_update_enrollment_progress` derives (completed / total
* 100); `Rat` division by the degenerate total 0 yields 0, but the operation
never stores it in that case. -/
def recalcPct (db : DB) (eid cid : Nat) : Rat :=
  (completedEligible db eid cid : Rat) / (totalEligible db cid : Rat) * 100

/-- The `update_data` construction of `_update_enrollment_progress`: the
percentage is always written; the status/timestamp branches test the
*pre-update* enrollment `e`. -/
def progressTransition (e : Enrollment) (p : Rat) (now : Nat) : Enrollment :=
  let e1 := { e with progress_percentage := p }
  if p ≥ 100 ∧ e.status ≠ "completed" then
    { e1 with status := "completed", completed_at := some now }
  else if p > 0 ∧ e.status = "enrolled" then
    { e1 with status := "in_progress", started_at := some now }
  else
    e1

/-- Service `CourseService._update_enrollment_progress`.  Returns the state unchanged
when the course has no eligible lesson (`if total_lessons == 0: return`). -/
def update_enrollment_progress (db : DB) (eid : Nat) (now : Nat) : DB :=
  match db.findEnrollment eid with
  | none => db
  | some e =>
    let total := totalEligible db e.course_id
    if total = 0 then db
    else
      let p := recalcPct db eid e.course_id
      let e' := progressTransition e p now
      { db with enrollments := db.enrollments.map (fun r => if r.id == eid then e' else r) }

/-! Embedding of `CourseService.update_lesson_progress` (services.py lines 285-344)
and the `POST /lessons/{uuid}/complete` route (router.py lines 296-319) -/

/-- The `model_dump(exclude_unset=True)` / `setattr` loop: only the fields the
client actually sent are written onto the progress row. -/
def applyProgressUpdate (pr : LessonProgress) (u : LessonProgressUpdate) :
    LessonProgress :=
  let pr1 := match u.last_position with
    | some v => { pr with last_position := v }
    | none => pr
  let pr2 := match u.time_spent_seconds with
    | some v => { pr1 with time_spent_seconds := v }
    | none => pr1
  match u.notes with
  | some v => { pr2 with notes := v }
  | none => pr2

/-- The in-place mutation of the progress row: the partial update, then the
first-completion step (`if completed and not progress.is_completed`). -/
def progressAfter (pr0 : LessonProgress) (u : LessonProgressUpdate)
    (completed : Bool) (now : Nat) : LessonProgress :=
  let pr1 := applyProgressUpdate pr0 u
  if completed && !pr1.is_completed then
    { pr1 with is_completed := true, completed_at := some now }
  else pr1

/-- Service `CourseService.update_lesson_progress`: resolve lesson and its module,
require an active enrollment (404 `"Enrollment not found"` otherwise), fetch
or create the (enrollment, lesson) progress row, apply the partial update,
set the completion flag and timestamp only on the first transition to
completed, then run `_update_enrollment_progress`.  Returns the final state
and the stored row. -/
def update_lesson_progress (db : DB) (user_id lesson_id : Nat)
    (progress_data : LessonProgressUpdate) (completed : Bool) (now : Nat) :
    Except ApiError (DB × LessonProgress) :=
  match db.findLesson lesson_id with
  | none => .error ⟨500, "No row was found when one was required"⟩
  | some lesson =>
    match db.findModule lesson.module_id with
    | none => .error ⟨500, "No row was found when one was required"⟩
    | some m =>
      match db.activeEnrollment user_id m.course_id with
      | none => .error ⟨404, "Enrollment not found"⟩
      | some enrollment =>
        let found := db.findProgress enrollment.id lesson_id
        let pr0 : LessonProgress :=
          match found with
          | some pr => pr
          | none =>
            { id := nextId (db.lesson_progress.map (·.id))
              enrollment_id := enrollment.id
              lesson_id := lesson_id
              last_position := 0
              time_spent_seconds := 0
              notes := none
              is_completed := false
              completed_at := none }
        let pr2 := progressAfter pr0 progress_data completed now
        let db1 :=
          match found with
          | some _ =>
            { db with lesson_progress :=
                db.lesson_progress.map (fun r => if r.id == pr2.id then pr2 else r) }
          | none => { db with lesson_progress := db.lesson_progress ++ [pr2] }
        let db2 := update_enrollment_progress db1 enrollment.id now
        .ok (db2, pr2)

/-- The `POST /lessons/{uuid}/complete` route handler `complete_lesson`:
resolve the lesson by uuid (404 `"Lesson not found"` if unknown), default the
body to an empty update, and call `update_lesson_progress` with
`completed=True`. -/
def complete_lesson (db : DB) (user_id : Nat) (u : Nat)
    (progress_data : Option LessonProgressUpdate) (now : Nat) :
    Except ApiError (DB × LessonProgress) :=
  match db.findLessonByUuid u with
  | none => .error ⟨404, "Lesson not found"⟩
  | some lesson =>
    let pd := progress_data.getD ⟨none, none, none⟩
    update_lesson_progress db user_id lesson.id pd true now

/-! Embedding of `CourseService.submit_quiz` (services.py lines 355-450) -/

/-- Grading of one submitted response (the loop body of `submit_quiz`).
Auto-grading fires only for `multiple_choice` / `true_false` questions with a
truthy `selected_answer_id`; the selected answer is looked up among the
question's own answers, and a missing match falls into the incorrect branch
(`if answer and answer.is_correct ... else ...`).  For every other question
type `is_correct` stays unset and `points_earned` stays at its 0 default.
Returns the response row together with the question's point value (the
`total_points` contribution).  A missing question row is `scalar_one`'s
`NoResultFound`, surfaced as a 500. -/
def gradeResponse (db : DB) (attempt_id resp_id : Nat)
    (rd : QuizAttemptResponse) : Except ApiError (QuestionResponse × Nat) :=
  match db.findQuestion rd.question_id with
  | none => .error ⟨500, "No row was found when one was required"⟩
  | some question =>
    let base : QuestionResponse :=
      { id := resp_id
        attempt_id := attempt_id
        question_id := question.id
        selected_answer_id := rd.selected_answer_id
        text_response := rd.text_response
        points_earned := 0
        is_correct := none }
    let graded : QuestionResponse :=
      if question.question_type = "multiple_choice" ∨
          question.question_type = "true_false" then
        match rd.selected_answer_id with
        | some aid =>
          if aid = 0 then base
          else
            match question.answers.find? (·.id == aid) with
            | some a =>
              if a.is_correct then
                { base with is_correct := some true,
                            points_earned := (question.points : Rat) }
              else
                { base with is_correct := some false, points_earned := 0 }
            | none =>
              { base with is_correct := some false, points_earned := 0 }
        | none => base
      else base
    .ok (graded, question.points)

/-- The whole response loop: grades each submitted response in order,
accumulating `total_points` (sum of the questions' point values) and
`earned_points` (sum of `points_earned or 0`).  `resp_id` threads the
autoincrement ids of the created rows. -/
def gradeAll (db : DB) (attempt_id : Nat) (rds : List QuizAttemptResponse)
    (resp_id : Nat) : Except ApiError (List QuestionResponse × Nat × Rat) :=
  match rds with
  | [] => .ok ([], 0, 0)
  | rd :: rest =>
    match gradeResponse db attempt_id resp_id rd with
    | .error e => .error e
    | .ok (resp, pts) =>
      match gradeAll db attempt_id rest (resp_id + 1) with
      | .error e => .error e
      | .ok (resps, total, earned) =>
        .ok (resp :: resps, pts + total, resp.points_earned + earned)

/-- First part of `submit_quiz`, up to the construction of the attempt
(services.py lines 362-395): quiz lookup (404), active-enrollment lookup
(404), attempt-limit check (400) — these read the count via the *first*
`attempt_count.scalar()` call (line 387).  A submission that passes the
limit check then evaluates `attempt_count.scalar() + 1` (line 395), a
*second* `.scalar()` on the same SQLAlchemy `Result`; `Result.scalar()`
closes the result set, so the second call raises `ResourceClosedError`
("This result object is closed"), an unhandled exception surfaced as a 500.
The attempt object, `db.add` and the first `db.commit()` (lines 391-398) are
therefore unreachable, and this function never returns `.ok`. -/
def submit_quiz_phase1 (db : DB) (user_id : Nat) (sub : QuizSubmission) :
    Except ApiError (DB × Quiz × QuizAttempt) :=
  match db.findQuiz sub.quiz_id with
  | none => .error ⟨404, "Quiz not found"⟩
  | some quiz =>
    match db.activeEnrollment user_id quiz.course_id with
    | none => .error ⟨404, "Enrollment not found"⟩
    | some _enrollment =>
      let cnt := db.attemptCount quiz.id user_id
      if cnt ≥ quiz.max_attempts then
        .error ⟨400, "Maximum attempts exceeded"⟩
      else
        .error ⟨500, "This result object is closed"⟩

/-- Second half of `submit_quiz` (lines 401-449), embedded for reference as
the block the source would run after the attempt creation: grade every
response, compute `score = earned / total * 100 if total > 0 else 0` and
`passed = score >= quiz.passing_score`, then commit the response rows and
the completed attempt together.  Unreachable through `submit_quiz`, since
`submit_quiz_phase1` always raises first. -/
def submit_quiz_phase2 (db : DB) (quiz : Quiz) (attempt : QuizAttempt)
    (sub : QuizSubmission) (now : Nat) : Except ApiError (DB × QuizAttempt) :=
  match gradeAll db attempt.id sub.responses (nextId (db.responses.map (·.id))) with
  | .error e => .error e
  | .ok (resps, total, earned) =>
    let score : Rat := if total > 0 then earned / (total : Rat) * 100 else 0
    let passed : Bool := decide (score ≥ (quiz.passing_score : Rat))
    let attempt' :=
      { attempt with completed_at := some now, score := some score, passed := passed }
    let db' :=
      { db with
        responses := db.responses ++ resps
        attempts := db.attempts.map (fun a => if a.id == attempt.id then attempt' else a) }
    .ok (db', attempt')

/-- Service `CourseService.submit_quiz`: the two parts in sequence.  Since
`submit_quiz_phase1` always errors (at one of the three checks, or at the
line-395 result-reuse), every run of this function errors; the grading part
is dead code. -/
def submit_quiz (db : DB) (user_id : Nat) (sub : QuizSubmission) (now : Nat) :
    Except ApiError (DB × QuizAttempt) :=
  match submit_quiz_phase1 db user_id sub with
  | .error e => .error e
  | .ok (db1, quiz, attempt) => submit_quiz_phase2 db1 quiz attempt sub now

/-- The sequence of database states made durable by `submit_quiz`'s
`db.commit()` calls, in order.  Because the line-395 `ResourceClosedError`
fires before the first commit (line 398), this list is empty on every
input: `submit_quiz` never commits anything. -/
def submit_quiz_committed_states (db : DB) (user_id : Nat)
    (sub : QuizSubmission) (now : Nat) : List DB :=
  match submit_quiz_phase1 db user_id sub with
  | .error _ => []
  | .ok (db1, quiz, attempt) =>
    db1 ::
      (match submit_quiz_phase2 db1 quiz attempt sub now with
       | .error _ => []
       | .ok (db2, _) => [db2])

/-- Sum of the point values of the questions referenced by a submission
(0 for a dangling question id, which cannot occur on a successful run). -/
def totalPoints (db : DB) (rds : List QuizAttemptResponse) : Nat :=
  (rds.map (fun rd => (db.findQuestion rd.question_id).elim 0 (·.points))).sum

/-- Sum of `points_earned` over a list of stored responses. -/
def earnedPoints (resps : List QuestionResponse) : Rat :=
  (resps.map (·.points_earned)).sum

/-! Concrete fixtures: a course with one quiz of two five-point
multiple-choice questions plus one essay question (the §8 example scenario of
the specification), and a course with one published module of two published
lessons. -/

def exQ1 : Question := ⟨1, 1, "multiple_choice", 5, [⟨1, true⟩, ⟨2, false⟩]⟩

def exQ2 : Question := ⟨2, 1, "multiple_choice", 5, [⟨3, false⟩, ⟨4, true⟩]⟩

def exQ3 : Question := ⟨3, 1, "essay", 4, []⟩

/-- Fixture quiz: passing score 60, 3 attempts allowed, **unpublished** and
with availability window [100, 200] (the operations below run at tick 9). -/
def exQuiz : Quiz := ⟨1, 1, 60, 3, false, some 100, some 200⟩

def exEnr : Enrollment := ⟨1, 1, 1, "enrolled", 0, true, none, none⟩

def exDb : DB :=
  ⟨[⟨1, none⟩], [], [], [exEnr], [], [exQuiz], [exQ1, exQ2, exQ3], [], []⟩

/-- Fixture submission: question 1 answered correctly, question 2 wrongly. -/
def exSub : QuizSubmission := ⟨1, [⟨1, some 1, none⟩, ⟨2, some 3, none⟩]⟩

def exMod : Module := ⟨1, 1, true⟩

def exLesson1 : Lesson := ⟨1, 11, 1, true⟩

def exLesson2 : Lesson := ⟨2, 12, 1, true⟩

/-- Fixture progress state: two published lessons, student 1 enrolled, no
lesson progress yet. -/
def pDb0 : DB :=
  ⟨[⟨1, none⟩], [exMod], [exLesson1, exLesson2], [exEnr], [], [], [], [], []⟩

def noUpd : LessonProgressUpdate := ⟨none, none, none⟩

/-! Further derived definitions used to state the claims. -/

/-- A sequence of progress recalculations, each on some enrollment id at some
tick. -/
def recalcSeq (db : DB) (calls : List (Nat × Nat)) : DB :=
  calls.foldl (fun d c => update_enrollment_progress d c.1 c.2) db

/-- Resolution of the active enrollment that `update_lesson_progress` uses:
the lesson, then its module's course, then the student's active enrollment in
that course. -/
def lessonEnrollment (db : DB) (uid lid : Nat) : Option Enrollment :=
  match db.findLesson lid with
  | none => none
  | some lesson =>
    match db.findModule lesson.module_id with
    | none => none
    | some m => db.activeEnrollment uid m.course_id

/-- The pre-state (enrollment, lesson) progress record the operation fetches. -/
def preProgress (db : DB) (uid lid : Nat) : Option LessonProgress :=
  (lessonEnrollment db uid lid).bind (fun e => db.findProgress e.id lid)

/-! Additional fixtures for the witness and counterexample theorems. -/

/-- Fixture quiz with `max_attempts = 1`. -/
def exQuizOne : Quiz := ⟨1, 1, 60, 1, true, none, none⟩

def db3A : DB := { exDb with quizzes := [exQuizOne] }

def db3B : DB :=
  { db3A with attempts := [⟨1, 1, 1, 1, 1, some 2, some 100, true⟩] }

def prDone : LessonProgress := ⟨1, 1, 1, 0, 0, none, true, some 5⟩

/-- Fixture: one of the two lessons completed, enrollment not yet updated. -/
def pDbHalf : DB := { pDb0 with lesson_progress := [prDone] }

def enrHalf : Enrollment := ⟨1, 1, 1, "in_progress", 50, true, some 5, none⟩

/-- Fixture: state after the first completion call on `pDb0`. -/
def pDb1 : DB := { pDb0 with lesson_progress := [prDone], enrollments := [enrHalf] }

def enrDone : Enrollment := ⟨1, 1, 1, "completed", 100, true, some 1, some 2⟩

/-- Fixture: the enrollment already `completed`. -/
def cDb : DB := { pDb0 with enrollments := [enrDone] }

/-- Fixture: a course with no lessons at all (zero eligible lessons). -/
def zDb : DB := ⟨[⟨1, none⟩], [], [], [exEnr], [], [], [], [], []⟩

/-- Fixture: a course whose `enrollment_limit` is the (reachable) value 0. -/
def c8Db0 : DB := ⟨[⟨1, some 0⟩], [], [], [], [], [], [], [], []⟩

def enrOther : Enrollment := ⟨1, 2, 1, "enrolled", 0, true, none, none⟩

/-- Fixture: limit 2, one active enrollment of another student. -/
def c8DbOk : DB := ⟨[⟨1, some 2⟩], [], [], [enrOther], [], [], [], [], []⟩

/-- Fixture: limit 1 already filled by another student. -/
def c8DbFull : DB := ⟨[⟨1, some 1⟩], [], [], [enrOther], [], [], [], [], []⟩

/-- Fixture: lessons exist but student 2 has no enrollment. -/
def p9Db : DB := { pDb0 with enrollments := [] }

/-- Replacement of the three publication fields of a quiz row — everything
`submit_quiz` never reads. -/
def quizWithPublication (p : Bool) (af au : Option Nat) (q : Quiz) : Quiz :=
  { q with is_published := p, available_from := af, available_until := au }

/-- The state with the publication fields of quiz `qid` replaced. -/
def setQuizPublication (db : DB) (qid : Nat) (p : Bool)
    (af au : Option Nat) : DB :=
  { db with quizzes := db.quizzes.map (fun q =>
      if q.id == qid then quizWithPublication p af au q else q) }

/-! General lemmas about the grading loop. -/

theorem gradeResponse_ok_question (db : DB) (aid rid : Nat)
    (rd : QuizAttemptResponse) (resp : QuestionResponse) (pts : Nat)
    (h : gradeResponse db aid rid rd = .ok (resp, pts)) :
    ∃ q, db.findQuestion rd.question_id = some q ∧ pts = q.points := by
  unfold gradeResponse at h
  cases hq : db.findQuestion rd.question_id with
  | none => rw [hq] at h; exact absurd h (by simp)
  | some q =>
    rw [hq] at h
    refine ⟨q, rfl, ?_⟩
    simp only [Except.ok.injEq, Prod.mk.injEq] at h
    exact h.2.symm

/-- Lemma: a successful run of the grading loop accumulates exactly the sum of
the submitted questions' point values and the sum of the stored responses'
`points_earned`. -/
theorem gradeAll_sums (db : DB) (aid : Nat) :
    ∀ (rds : List QuizAttemptResponse) (k : Nat) (resps : List QuestionResponse)
      (total : Nat) (earned : Rat),
      gradeAll db aid rds k = .ok (resps, total, earned) →
      total = totalPoints db rds ∧ earned = earnedPoints resps := by
  intro rds
  induction rds with
  | nil =>
    intro k resps total earned h
    simp only [gradeAll, Except.ok.injEq, Prod.mk.injEq] at h
    obtain ⟨h1, h2, h3⟩ := h
    subst h1; subst h2; subst h3
    exact ⟨rfl, rfl⟩
  | cons rd rest ih =>
    intro k resps total earned h
    unfold gradeAll at h
    cases hg : gradeResponse db aid k rd with
    | error e => rw [hg] at h; exact absurd h (by simp)
    | ok pr =>
      obtain ⟨resp, pts⟩ := pr
      rw [hg] at h
      cases hr : gradeAll db aid rest (k + 1) with
      | error e => rw [hr] at h; exact absurd h (by simp)
      | ok out =>
        obtain ⟨resps1, total1, earned1⟩ := out
        rw [hr] at h
        simp only [Except.ok.injEq, Prod.mk.injEq] at h
        obtain ⟨hresps, htot, hearn⟩ := h
        obtain ⟨q, hq, hpts⟩ := gradeResponse_ok_question db aid k rd resp pts hg
        obtain ⟨ht1, he1⟩ := ih (k + 1) resps1 total1 earned1 hr
        subst hresps; subst htot; subst hearn
        constructor
        · simp [totalPoints, hq, ← hpts, ht1]
        · simp [earnedPoints, he1]

example :
    update_lesson_progress pDb0 1 1 noUpd true 5 =
      .ok ({ pDb0 with
             lesson_progress := [⟨1, 1, 1, 0, 0, none, true, some 5⟩]
             enrollments := [⟨1, 1, 1, "in_progress", 50, true, some 5, none⟩] },
           ⟨1, 1, 1, 0, 0, none, true, some 5⟩) := by with_unfolding_all rfl

theorem gradeResponse_ok_of_found (db : DB) (aid rid : Nat)
    (rd : QuizAttemptResponse) (q : Question)
    (hq : db.findQuestion rd.question_id = some q) :
    ∃ resp, gradeResponse db aid rid rd = .ok (resp, q.points) := by
  unfold gradeResponse
  rw [hq]
  exact ⟨_, rfl⟩

theorem gradeAll_ok (db : DB) (aid : Nat) :
    ∀ (rds : List QuizAttemptResponse) (k : Nat),
      (∀ rd ∈ rds, (db.findQuestion rd.question_id).isSome) →
      ∃ out, gradeAll db aid rds k = .ok out := by
  intro rds
  induction rds with
  | nil => intro k _; exact ⟨([], 0, 0), rfl⟩
  | cons rd rest ih =>
    intro k hall
    have hq : (db.findQuestion rd.question_id).isSome :=
      hall rd (List.mem_cons_self _ _)
    obtain ⟨q, hq⟩ := Option.isSome_iff_exists.mp hq
    obtain ⟨resp, hresp⟩ := gradeResponse_ok_of_found db aid k rd q hq
    obtain ⟨⟨resps1, total1, earned1⟩, hrest⟩ :=
      ih (k + 1) (fun r hr => hall r (List.mem_cons_of_mem _ hr))
    refine ⟨(resp :: resps1, q.points + total1, resp.points_earned + earned1), ?_⟩
    unfold gradeAll
    rw [hresp, hrest]

theorem progressTransition_idem (e : Enrollment) (p : Rat) (now : Nat) :
    (progressTransition e p now).id = e.id ∧
    (progressTransition e p now).progress_percentage = p := by
  unfold progressTransition
  split
  · exact ⟨rfl, rfl⟩
  · split
    · exact ⟨rfl, rfl⟩
    · exact ⟨rfl, rfl⟩

theorem progressTransition_keeps_completed (e : Enrollment) (p : Rat) (now : Nat)
    (h : e.status = "completed") :
    (progressTransition e p now).status = "completed" := by
  unfold progressTransition
  split
  · rfl
  · split
    · rename_i hb
      rw [h] at hb
      exact absurd hb.2 (by decide)
    · simpa using h

theorem find_replace_enrollment (l : List Enrollment) (eid : Nat)
    (e f : Enrollment)
    (h : l.find? (fun r => r.id == eid) = some e) (h1 : f.id = eid) :
    (l.map (fun r => if r.id == eid then f else r)).find?
        (fun r => r.id == eid) = some f := by
  induction l with
  | nil => simp at h
  | cons a as ih =>
    by_cases ha : a.id = eid
    · have hpa : (a.id == eid) = true := by simpa using ha
      simp only [List.map_cons, hpa, if_true]
      exact List.find?_cons_of_pos _ (by simp [h1])
    · have hpa : (a.id == eid) = false := by simpa using ha
      rw [List.find?_cons_of_neg _ (by simp [hpa])] at h
      simp only [List.map_cons, hpa, Bool.false_eq_true, if_false]
      rw [List.find?_cons_of_neg _ (by simp [hpa])]
      exact ih h

/-- C2: auto-grading applies only to `multiple_choice` / `true_false`
questions.  When the submitted response carries a (truthy) selected-answer id
that matches one of the question's answers, the stored response's
`is_correct` is exactly that answer's correctness flag and `points_earned` is
the question's full point value when correct and 0 otherwise; for
`short_answer` and `essay` questions `is_correct` stays unset and
`points_earned` stays 0 regardless of the text response.  (Database ids are
positive autoincrements, so the truthiness guard `a ≠ 0` is vacuous on
reachable states.) -/
theorem auto_grading_per_question_type (db : DB) (aid rid : Nat)
    (rd : QuizAttemptResponse) (q : Question)
    (hq : db.findQuestion rd.question_id = some q) :
    ((q.question_type = "multiple_choice" ∨ q.question_type = "true_false") →
      ∀ a ans, rd.selected_answer_id = some a → a ≠ 0 →
        q.answers.find? (·.id == a) = some ans →
        ∃ resp, gradeResponse db aid rid rd = .ok (resp, q.points) ∧
          resp.is_correct = some ans.is_correct ∧
          resp.points_earned = (if ans.is_correct then (q.points : Rat) else 0)) ∧
    ((q.question_type = "short_answer" ∨ q.question_type = "essay") →
      ∃ resp, gradeResponse db aid rid rd = .ok (resp, q.points) ∧
        resp.is_correct = none ∧ resp.points_earned = 0) := by
  constructor
  · intro hty a ans hsel hnz hfind
    simp only [gradeResponse, hq]
    rw [if_pos hty]
    simp only [hsel]
    rw [if_neg hnz]
    simp only [hfind]
    by_cases hb : ans.is_correct
    · simp only [hb, if_true]
      exact ⟨_, rfl, rfl, rfl⟩
    · have hb2 : ans.is_correct = false := by simpa using hb
      simp only [hb2, Bool.false_eq_true, if_false]
      exact ⟨_, rfl, rfl, rfl⟩
  · intro hty
    have hcond : ¬(q.question_type = "multiple_choice" ∨
        q.question_type = "true_false") := by
      rcases hty with h | h <;> rw [h] <;> decide
    simp only [gradeResponse, hq]
    rw [if_neg hcond]
    exact ⟨_, rfl, rfl, rfl⟩

/-- C2 witness: on the fixture database, the correctly answered five-point
multiple-choice question grades to `is_correct = some true` with 5 points,
and the essay question stays ungraded with 0 points. -/
theorem auto_grading_per_question_type_witness :
    (∃ resp, gradeResponse exDb 1 1 ⟨1, some 1, none⟩ = .ok (resp, 5) ∧
       resp.is_correct = some true ∧ resp.points_earned = 5) ∧
    (∃ resp, gradeResponse exDb 1 1 ⟨3, none, none⟩ = .ok (resp, 4) ∧
       resp.is_correct = none ∧ resp.points_earned = 0) := by
  constructor
  · have h := (auto_grading_per_question_type exDb 1 1 ⟨1, some 1, none⟩ exQ1
      (by with_unfolding_all rfl)).1 (Or.inl rfl) 1 ⟨1, true⟩ rfl (by decide)
      (by with_unfolding_all rfl)
    obtain ⟨resp, h1, h2, h3⟩ := h
    exact ⟨resp, h1, h2, by simpa using h3⟩
  · have h := (auto_grading_per_question_type exDb 1 1 ⟨3, none, none⟩ exQ3
      (by with_unfolding_all rfl)).2 (Or.inr rfl)
    exact h

theorem submit_quiz_phase1_never_ok (db : DB) (uid : Nat) (sub : QuizSubmission) :
    ∃ e, submit_quiz_phase1 db uid sub = .error e := by
  unfold submit_quiz_phase1
  split
  · exact ⟨_, rfl⟩
  · split
    · exact ⟨_, rfl⟩
    · dsimp only
      split
      · exact ⟨_, rfl⟩
      · exact ⟨_, rfl⟩

/-- C1 (code bug): the specified score formula is never computed.  The
fixture submission passes the quiz lookup, the active-enrollment check and
the attempt-limit check, yet `submit_quiz` errors with the 500 result-reuse
error of services.py line 395 (`attempt_count.scalar()` called a second
time on an already-closed SQLAlchemy `Result`), so no attempt carrying a
final score ever exists, while the claim requires
`score = earned / total * 100`. -/
theorem submission_crashes_before_scoring :
    exDb.findQuiz 1 = some exQuiz ∧
    exDb.activeEnrollment 1 exQuiz.course_id = some exEnr ∧
    exDb.attemptCount exQuiz.id 1 < exQuiz.max_attempts ∧
    submit_quiz exDb 1 exSub 9 =
      .error ⟨500, "This result object is closed"⟩ := by
  refine ⟨?_, ?_, ?_, ?_⟩
  · with_unfolding_all rfl
  · with_unfolding_all rfl
  · decide
  · with_unfolding_all rfl

/-- C3 (code bug): the attempt-limit half of the claim holds — with one
prior attempt and `max_attempts = 1` the submission fails with the 400
limit error — but the success half does not: the first submission (0 prior
attempts, strictly under the limit) does not succeed with
`attempt_number = 1`; it errors with the 500 result-reuse error of line 395
before the attempt row is ever created. -/
theorem attempt_limit_enforced_but_nth_submission_crashes :
    submit_quiz db3B 1 exSub 9 = .error ⟨400, "Maximum attempts exceeded"⟩ ∧
    db3A.attemptCount exQuizOne.id 1 = 0 ∧
    exQuizOne.max_attempts = 1 ∧
    submit_quiz db3A 1 exSub 9 =
      .error ⟨500, "This result object is closed"⟩ := by
  refine ⟨?_, ?_, ?_, ?_⟩
  · with_unfolding_all rfl
  · with_unfolding_all rfl
  · decide
  · with_unfolding_all rfl

/-- C4: `submit_quiz` satisfies the all-or-nothing persistence claim in the
degenerate sense the code actually realises: it never commits anything at
all.  The line-395 `ResourceClosedError` fires before the attempt object,
`db.add` and the first `db.commit()` of line 398, so on every input the
list of committed states is empty and no run succeeds — either the whole
attempt with all responses and the computed score is committed, or nothing
is, and here it is always nothing; in particular no committed attempt
lacking its responses or final score is ever observable. -/
theorem submit_quiz_commits_all_or_nothing (db : DB) (uid : Nat)
    (sub : QuizSubmission) (now : Nat) :
    submit_quiz_committed_states db uid sub now = [] ∧
    isOkE (submit_quiz db uid sub now) = false := by
  obtain ⟨e, he⟩ := submit_quiz_phase1_never_ok db uid sub
  constructor
  · unfold submit_quiz_committed_states
    rw [he]
  · unfold submit_quiz
    rw [he]
    rfl

theorem find?_map_of_pred_eq (g : Quiz → Quiz) (p : Quiz → Bool)
    (l : List Quiz) (h : ∀ x, p (g x) = p x) :
    (l.map g).find? p = (l.find? p).map g := by
  induction l with
  | nil => rfl
  | cons a as ih =>
    simp only [List.map_cons]
    cases hpa : p a
    · rw [List.find?_cons_of_neg _ (by simp [h, hpa]),
        List.find?_cons_of_neg _ (by simp [hpa]), ih]
    · rw [List.find?_cons_of_pos _ (by simp [h, hpa]),
        List.find?_cons_of_pos _ (by simp [hpa])]
      rfl

/-- C10 counterexample: the claim as stated is false: on the fixture state
the quiz exists, the student is actively enrolled and under the attempt
limit, the quiz is unpublished — and the submission does *not* succeed: no
submission ever does, because of the line-395 result-reuse error. -/
theorem unpublished_submission_counterexample :
    exQuiz.is_published = false ∧
    exDb.activeEnrollment 1 exQuiz.course_id = some exEnr ∧
    exDb.attemptCount exQuiz.id 1 < exQuiz.max_attempts ∧
    isOkE (submit_quiz exDb 1 exSub 9) = false := by
  with_unfolding_all decide

/-- C10 (amended): `submit_quiz` never consults the quiz's publication flag
or availability window: its outcome is literally identical for every value
of `is_published`, `available_from` and `available_until`.  (No submission
by an enrolled student under the attempt limit succeeds, published or not —
each errors at the line-395 result reuse before any attempt is created —
and that uniform outcome is independent of the publication fields.) -/
theorem submission_outcome_ignores_publication (db : DB) (qid : Nat)
    (p : Bool) (af au : Option Nat) (uid : Nat) (sub : QuizSubmission)
    (now : Nat) :
    submit_quiz (setQuizPublication db qid p af au) uid sub now =
      submit_quiz db uid sub now := by
  have hfind : (setQuizPublication db qid p af au).findQuiz sub.quiz_id =
      (db.findQuiz sub.quiz_id).map
        (fun q => if q.id == qid then quizWithPublication p af au q else q) := by
    refine find?_map_of_pred_eq _ _ db.quizzes ?_
    intro x
    cases hx : x.id == qid
    · simp [hx]
    · simp [hx, quizWithPublication]
  unfold submit_quiz submit_quiz_phase1
  rw [hfind]
  cases hq : db.findQuiz sub.quiz_id with
  | none => rfl
  | some q =>
    by_cases hx : (q.id == qid) = true
    · simp only [Option.map_some', hx, if_true]
      rfl
    · have hx2 : (q.id == qid) = false := by simpa using hx
      simp only [Option.map_some', hx2, Bool.false_eq_true, if_false]
      rfl

/-- C5: for an enrollment whose course has eligible lessons (published
lessons of published modules), progress recalculation always writes
`completed / total * 100` as the enrollment's progress percentage; with zero
eligible lessons the operation is a no-op and the whole state is unchanged. -/
theorem progress_percentage_recalculation (db : DB) (eid now : Nat)
    (e : Enrollment) (he : db.findEnrollment eid = some e) :
    (totalEligible db e.course_id = 0 →
      update_enrollment_progress db eid now = db) ∧
    (0 < totalEligible db e.course_id →
      ∃ e1, (update_enrollment_progress db eid now).findEnrollment eid = some e1 ∧
        e1.progress_percentage =
          (completedEligible db eid e.course_id : Rat) /
            (totalEligible db e.course_id : Rat) * 100) := by
  have he2 : db.enrollments.find? (fun r => r.id == eid) = some e := he
  have heid : e.id = eid := by simpa using List.find?_some he2
  constructor
  · intro h0
    unfold update_enrollment_progress
    simp only [he]
    rw [if_pos h0]
  · intro hpos
    unfold update_enrollment_progress
    simp only [he]
    rw [if_neg (by omega : ¬ totalEligible db e.course_id = 0)]
    refine ⟨progressTransition e (recalcPct db eid e.course_id) now, ?_, ?_⟩
    · simp only [DB.findEnrollment]
      exact find_replace_enrollment db.enrollments eid e _ he2
        (by rw [(progressTransition_idem e _ now).1, heid])
    · exact (progressTransition_idem e _ now).2

/-- C5 witness: with one of two eligible lessons completed the stored
percentage becomes 1 / 2 * 100 = 50; on a course without lessons the
recalculation leaves the state untouched. -/
theorem progress_percentage_recalculation_witness :
    update_enrollment_progress zDb 1 7 = zDb ∧
    (∃ e1, (update_enrollment_progress pDbHalf 1 7).findEnrollment 1 = some e1 ∧
       e1.progress_percentage = (completedEligible pDbHalf 1 1 : Rat) /
         (totalEligible pDbHalf 1 : Rat) * 100) := by
  constructor
  · exact (progress_percentage_recalculation zDb 1 7 exEnr
      (by with_unfolding_all rfl)).1 (by decide)
  · exact (progress_percentage_recalculation pDbHalf 1 7 exEnr
      (by with_unfolding_all rfl)).2 (by decide)

theorem progressTransition_cases (e : Enrollment) (p : Rat) (now : Nat) :
    ((p ≥ 100 ∧ e.status ≠ "completed") →
      (progressTransition e p now).status = "completed" ∧
      (progressTransition e p now).completed_at = some now ∧
      (progressTransition e p now).started_at = e.started_at) ∧
    ((0 < p ∧ p < 100 ∧ e.status = "enrolled") →
      (progressTransition e p now).status = "in_progress" ∧
      (progressTransition e p now).started_at = some now ∧
      (progressTransition e p now).completed_at = e.completed_at) ∧
    (¬(p ≥ 100 ∧ e.status ≠ "completed") →
     ¬(0 < p ∧ p < 100 ∧ e.status = "enrolled") →
      (progressTransition e p now).status = e.status ∧
      (progressTransition e p now).started_at = e.started_at ∧
      (progressTransition e p now).completed_at = e.completed_at) := by
  unfold progressTransition
  split
  · rename_i hc1
    refine ⟨fun _ => ⟨rfl, rfl, rfl⟩, ?_, ?_⟩
    · intro hc2
      exact absurd hc1.1 (not_le.mpr hc2.2.1)
    · intro hn1 _
      exact absurd hc1 hn1
  · rename_i hn1
    split
    · rename_i hc2
      refine ⟨?_, fun _ => ⟨rfl, rfl, rfl⟩, ?_⟩
      · intro hc1
        exact absurd hc1 hn1
      · intro _ hn2
        exfalso
        apply hn2
        refine ⟨hc2.1, ?_, hc2.2⟩
        by_contra hge
        push_neg at hge
        exact hn1 ⟨hge, by rw [hc2.2]; decide⟩
    · rename_i hn2c
      refine ⟨?_, ?_, fun _ _ => ⟨rfl, rfl, rfl⟩⟩
      · intro hc1
        exact absurd hc1 hn1
      · intro hc2
        exact absurd ⟨hc2.1, hc2.2.2⟩ hn2c

theorem update_enrollment_progress_enrollments (db : DB) (j t : Nat) :
    (update_enrollment_progress db j t).enrollments = db.enrollments ∨
    ∃ e0 p, db.findEnrollment j = some e0 ∧
      (update_enrollment_progress db j t).enrollments =
        db.enrollments.map
          (fun r => if r.id == j then progressTransition e0 p t else r) := by
  unfold update_enrollment_progress
  split
  · exact Or.inl rfl
  · rename_i e0 hfind
    dsimp only
    split
    · exact Or.inl rfl
    · exact Or.inr ⟨e0, _, hfind, rfl⟩

theorem recalc_keeps_completed_step (db : DB) (j t eid : Nat)
    (hinv : ∀ r ∈ db.enrollments, r.id = eid → r.status = "completed") :
    ∀ r ∈ (update_enrollment_progress db j t).enrollments,
      r.id = eid → r.status = "completed" := by
  rcases update_enrollment_progress_enrollments db j t with h | ⟨e0, p, hfind, h⟩
  · rw [h]; exact hinv
  · rw [h]
    intro r hr hid
    simp only [List.mem_map] at hr
    obtain ⟨r0, hr0, hfr⟩ := hr
    by_cases hj : r0.id = j
    · have hbeq : (r0.id == j) = true := by simpa using hj
      rw [← hfr] at hid ⊢
      simp only [hbeq, if_true] at hid ⊢
      have he0mem : e0 ∈ db.enrollments := List.mem_of_find?_eq_some hfind
      rw [(progressTransition_idem e0 p t).1] at hid
      exact progressTransition_keeps_completed e0 p t (hinv e0 he0mem hid)
    · have hbeq : (r0.id == j) = false := by simpa using hj
      rw [← hfr] at hid ⊢
      simp only [hbeq, Bool.false_eq_true, if_false] at hid ⊢
      exact hinv r0 hr0 hid

theorem recalc_keeps_member_step (db : DB) (j t eid : Nat)
    (hmem : ∃ r ∈ db.enrollments, r.id = eid) :
    ∃ r ∈ (update_enrollment_progress db j t).enrollments, r.id = eid := by
  rcases update_enrollment_progress_enrollments db j t with h | ⟨e0, p, hfind, h⟩
  · rw [h]; exact hmem
  · rw [h]
    obtain ⟨r, hr, hid⟩ := hmem
    by_cases hj : r.id = j
    · have hbeq : (r.id == j) = true := by simpa using hj
      have he0id : e0.id = j := by simpa using List.find?_some hfind
      refine ⟨progressTransition e0 p t,
        List.mem_map.mpr ⟨r, hr, by simp [hbeq]⟩, ?_⟩
      rw [(progressTransition_idem e0 p t).1, he0id, ← hj]
      exact hid
    · have hbeq : (r.id == j) = false := by simpa using hj
      exact ⟨r, List.mem_map.mpr ⟨r, hr, by simp [hbeq]⟩, hid⟩

theorem recalcSeq_keeps_completed (eid : Nat) :
    ∀ (calls : List (Nat × Nat)) (db : DB),
      (∀ r ∈ db.enrollments, r.id = eid → r.status = "completed") →
      (∃ r ∈ db.enrollments, r.id = eid) →
      ∃ e1, (recalcSeq db calls).findEnrollment eid = some e1 ∧
        e1.status = "completed" := by
  intro calls
  induction calls with
  | nil =>
    intro db hinv hmem
    obtain ⟨r, hr, hid⟩ := hmem
    have hsome : (db.enrollments.find? (fun x => x.id == eid)).isSome := by
      rw [List.find?_isSome]
      exact ⟨r, hr, by simpa using hid⟩
    obtain ⟨e1, he1⟩ := Option.isSome_iff_exists.mp hsome
    refine ⟨e1, he1, ?_⟩
    exact hinv e1 (List.mem_of_find?_eq_some he1)
      (by simpa using List.find?_some he1)
  | cons c rest ih =>
    intro db hinv hmem
    exact ih (update_enrollment_progress db c.1 c.2)
      (recalc_keeps_completed_step db c.1 c.2 eid hinv)
      (recalc_keeps_member_step db c.1 c.2 eid hmem)

/-- C6: progress recalculation applies exactly the documented transition
policy — `percentage ≥ 100` away from `completed` moves the enrollment to
`completed` and stamps the completion time; a strictly partial percentage
moves an `enrolled` enrollment to `in_progress` and stamps the start time
(only on that edge); in every other case the status and both timestamps are
untouched — and an enrollment whose status is `completed` stays `completed`
under every sequence of recalculations. -/
theorem status_transition_policy (db : DB) (eid now : Nat) (e : Enrollment)
    (he : db.findEnrollment eid = some e)
    (ht : 0 < totalEligible db e.course_id)
    (hnodup : (db.enrollments.map (·.id)).Nodup) :
    (∃ e1, (update_enrollment_progress db eid now).findEnrollment eid = some e1 ∧
      ((recalcPct db eid e.course_id ≥ 100 ∧ e.status ≠ "completed" →
          e1.status = "completed" ∧ e1.completed_at = some now ∧
          e1.started_at = e.started_at) ∧
       (0 < recalcPct db eid e.course_id ∧ recalcPct db eid e.course_id < 100 ∧
          e.status = "enrolled" →
          e1.status = "in_progress" ∧ e1.started_at = some now ∧
          e1.completed_at = e.completed_at) ∧
       (¬(recalcPct db eid e.course_id ≥ 100 ∧ e.status ≠ "completed") →
        ¬(0 < recalcPct db eid e.course_id ∧ recalcPct db eid e.course_id < 100 ∧
            e.status = "enrolled") →
          e1.status = e.status ∧ e1.started_at = e.started_at ∧
          e1.completed_at = e.completed_at))) ∧
    (e.status = "completed" → ∀ calls : List (Nat × Nat),
      ∃ e2, (recalcSeq db calls).findEnrollment eid = some e2 ∧
        e2.status = "completed") := by
  have he2 : db.enrollments.find? (fun r => r.id == eid) = some e := he
  have heid : e.id = eid := by simpa using List.find?_some he2
  have hemem : e ∈ db.enrollments := List.mem_of_find?_eq_some he2
  constructor
  · unfold update_enrollment_progress
    simp only [he]
    rw [if_neg (by omega : ¬ totalEligible db e.course_id = 0)]
    refine ⟨progressTransition e (recalcPct db eid e.course_id) now, ?_, ?_⟩
    · simp only [DB.findEnrollment]
      exact find_replace_enrollment db.enrollments eid e _ he2
        (by rw [(progressTransition_idem e _ now).1, heid])
    · exact progressTransition_cases e (recalcPct db eid e.course_id) now
  · intro hcomp calls
    apply recalcSeq_keeps_completed eid calls db
    · intro r hr hid
      have hre : r = e :=
        List.inj_on_of_nodup_map hnodup hr hemem (by rw [hid, heid])
      rw [hre]
      exact hcomp
    · exact ⟨e, hemem, heid⟩

/-- C6 witness: at 50 percent an `enrolled` fixture enrollment moves to
`in_progress` with the start timestamp stamped and the completion timestamp
untouched; a `completed` fixture enrollment is still `completed` after two
further recalculations. -/
theorem status_transition_policy_witness :
    (∃ e1, (update_enrollment_progress pDbHalf 1 7).findEnrollment 1 = some e1 ∧
       e1.status = "in_progress" ∧ e1.started_at = some 7 ∧
       e1.completed_at = none) ∧
    (∃ e2, (recalcSeq cDb [(1, 8), (1, 9)]).findEnrollment 1 = some e2 ∧
       e2.status = "completed") := by
  constructor
  · obtain ⟨e1, hfind, hcases⟩ := (status_transition_policy pDbHalf 1 7 exEnr
      (by with_unfolding_all rfl) (by decide) (by decide)).1
    have h := hcases.2.1
      ⟨by with_unfolding_all decide, by with_unfolding_all decide, rfl⟩
    exact ⟨e1, hfind, h.1, h.2.1, by rw [h.2.2]; with_unfolding_all rfl⟩
  · exact (status_transition_policy cDb 1 9 enrDone
      (by with_unfolding_all rfl) (by decide) (by decide)).2 rfl [(1, 8), (1, 9)]

theorem applyProgressUpdate_keeps (pr : LessonProgress)
    (u : LessonProgressUpdate) :
    (applyProgressUpdate pr u).id = pr.id ∧
    (applyProgressUpdate pr u).enrollment_id = pr.enrollment_id ∧
    (applyProgressUpdate pr u).lesson_id = pr.lesson_id ∧
    (applyProgressUpdate pr u).is_completed = pr.is_completed ∧
    (applyProgressUpdate pr u).completed_at = pr.completed_at := by
  obtain ⟨lp, ts, nt⟩ := u
  unfold applyProgressUpdate
  cases lp <;> cases ts <;> cases nt <;> exact ⟨rfl, rfl, rfl, rfl, rfl⟩

theorem progressAfter_not_completed (pr0 : LessonProgress)
    (u : LessonProgressUpdate) (now : Nat) (h : pr0.is_completed = false) :
    (progressAfter pr0 u true now).is_completed = true ∧
    (progressAfter pr0 u true now).completed_at = some now := by
  have happ := (applyProgressUpdate_keeps pr0 u).2.2.2.1
  simp only [progressAfter, happ, h]
  simp

theorem progressAfter_completed (pr0 : LessonProgress)
    (u : LessonProgressUpdate) (now : Nat) (h : pr0.is_completed = true) :
    progressAfter pr0 u true now = applyProgressUpdate pr0 u := by
  have happ := (applyProgressUpdate_keeps pr0 u).2.2.2.1
  simp only [progressAfter, happ, h]
  simp

theorem update_enrollment_progress_other_tables (db : DB) (j t : Nat) :
    (update_enrollment_progress db j t).lessons = db.lessons ∧
    (update_enrollment_progress db j t).modules = db.modules ∧
    (update_enrollment_progress db j t).lesson_progress = db.lesson_progress := by
  unfold update_enrollment_progress
  split
  · exact ⟨rfl, rfl, rfl⟩
  · dsimp only
    split
    · exact ⟨rfl, rfl, rfl⟩
    · exact ⟨rfl, rfl, rfl⟩

theorem eligibleLessonB_congr (d1 d2 : DB) (hm : d1.modules = d2.modules) :
    eligibleLessonB d1 = eligibleLessonB d2 := by
  funext cid l
  simp only [eligibleLessonB, DB.findModule, hm]

theorem totalEligible_congr (d1 d2 : DB) (hl : d1.lessons = d2.lessons)
    (hm : d1.modules = d2.modules) : totalEligible d1 = totalEligible d2 := by
  funext cid
  simp only [totalEligible, hl, eligibleLessonB_congr d1 d2 hm]

theorem completedPred_congr (d1 d2 : DB) (hl : d1.lessons = d2.lessons)
    (hm : d1.modules = d2.modules) : completedPred d1 = completedPred d2 := by
  funext eid cid p
  simp only [completedPred, DB.findLesson, hl,
    eligibleLessonB_congr d1 d2 hm]

theorem completedEligible_congr (d1 d2 : DB) (hl : d1.lessons = d2.lessons)
    (hm : d1.modules = d2.modules)
    (hp : d1.lesson_progress = d2.lesson_progress) :
    completedEligible d1 = completedEligible d2 := by
  funext eid cid
  simp only [completedEligible, hp, completedPred_congr d1 d2 hl hm]

theorem length_filter_map_replace (p : LessonProgress → Bool) (k : Nat)
    (x : LessonProgress) (l : List LessonProgress)
    (hpres : ∀ r ∈ l, r.id = k → p r = p x) :
    ((l.map (fun r => if r.id == k then x else r)).filter p).length =
      (l.filter p).length := by
  induction l with
  | nil => rfl
  | cons a as ih =>
    have tail := ih (fun r hr hk => hpres r (List.mem_cons_of_mem a hr) hk)
    by_cases hk : a.id = k
    · have hbeq : (a.id == k) = true := by simpa using hk
      have hpa : p a = p x := hpres a (List.mem_cons_self a as) hk
      simp only [List.map_cons, hbeq, if_true]
      rw [List.filter_cons, List.filter_cons, ← hpa]
      cases hc : p a
      · simp only [Bool.false_eq_true, if_false]
        exact tail
      · simp only [if_true, List.length_cons, tail]
    · have hbeq : (a.id == k) = false := by simpa using hk
      simp only [List.map_cons, hbeq, Bool.false_eq_true, if_false]
      rw [List.filter_cons, List.filter_cons]
      cases hc : p a
      · simp only [Bool.false_eq_true, if_false]
        exact tail
      · simp only [if_true, List.length_cons, tail]

theorem completedEligible_map_replace (db : DB) (x : LessonProgress)
    (hpres : ∀ eid cid, ∀ r ∈ db.lesson_progress, r.id = x.id →
      completedPred db eid cid r = completedPred db eid cid x) :
    completedEligible
        { db with lesson_progress :=
            db.lesson_progress.map fun r => if r.id == x.id then x else r } =
      completedEligible db := by
  funext eid cid
  simp only [completedEligible]
  rw [completedPred_congr
      { db with lesson_progress :=
                  db.lesson_progress.map fun r => if r.id == x.id then x else r }
      db rfl rfl]
  exact length_filter_map_replace (completedPred db eid cid) x.id x
    db.lesson_progress (hpres eid cid)

/-- C7: marking a lesson complete is idempotent on completion.  On a
successful call with `markCompleted = true`: when no progress record existed,
or an uncompleted one existed, the stored record gets the completed flag and
the completion timestamp `now`; when the record was already completed, the
flag and the original completion timestamp are untouched and both counts of
the progress recalculation (eligible total and completed) are unchanged for
every enrollment and course, so the recalculated percentage is unchanged. -/
theorem lesson_completion_idempotent (db : DB) (uid lid : Nat)
    (u : LessonProgressUpdate) (now : Nat) (dbOut : DB) (pr : LessonProgress)
    (hnodup : (db.lesson_progress.map (·.id)).Nodup)
    (h : update_lesson_progress db uid lid u true now = .ok (dbOut, pr)) :
    (preProgress db uid lid = none →
       pr.is_completed = true ∧ pr.completed_at = some now) ∧
    (∀ old, preProgress db uid lid = some old → old.is_completed = false →
       pr.is_completed = true ∧ pr.completed_at = some now) ∧
    (∀ old, preProgress db uid lid = some old → old.is_completed = true →
       pr.is_completed = true ∧ pr.completed_at = old.completed_at ∧
       totalEligible dbOut = totalEligible db ∧
       completedEligible dbOut = completedEligible db) := by
  unfold update_lesson_progress at h
  split at h
  · exact absurd h (by simp)
  · rename_i lesson hles
    split at h
    · exact absurd h (by simp)
    · rename_i m hmod
      split at h
      · exact absurd h (by simp)
      · rename_i enr henr
        simp only [] at h
        have hpre : preProgress db uid lid = db.findProgress enr.id lid := by
          simp only [preProgress, lessonEnrollment, hles, hmod, henr,
            Option.some_bind]
        refine ⟨?_, ?_, ?_⟩
        · intro hnone
          rw [hpre] at hnone
          simp only [hnone] at h
          simp only [Except.ok.injEq, Prod.mk.injEq] at h
          obtain ⟨hdb, hpr⟩ := h
          rw [← hpr]
          exact progressAfter_not_completed _ u now rfl
        · intro old hsome hnc
          rw [hpre] at hsome
          simp only [hsome] at h
          simp only [Except.ok.injEq, Prod.mk.injEq] at h
          obtain ⟨hdb, hpr⟩ := h
          rw [← hpr]
          exact progressAfter_not_completed old u now hnc
        · intro old hsome hcmp
          rw [hpre] at hsome
          simp only [hsome] at h
          simp only [Except.ok.injEq, Prod.mk.injEq] at h
          obtain ⟨hdb, hpr⟩ := h
          have hAfter : progressAfter old u true now = applyProgressUpdate old u :=
            progressAfter_completed old u now hcmp
          have hkeep := applyProgressUpdate_keeps old u
          have holdmem : old ∈ db.lesson_progress :=
            List.mem_of_find?_eq_some hsome
          have hpres : ∀ eid2 cid2, ∀ r ∈ db.lesson_progress,
              r.id = (progressAfter old u true now).id →
              completedPred db eid2 cid2 r =
                completedPred db eid2 cid2 (progressAfter old u true now) := by
            intro eid2 cid2 r hr hid
            have hro : r = old :=
              List.inj_on_of_nodup_map hnodup hr holdmem
                (by rw [hid, hAfter, hkeep.1])
            subst hro
            rw [hAfter]
            simp only [completedPred, hkeep.2.1, hkeep.2.2.1, hkeep.2.2.2.1]
          refine ⟨?_, ?_, ?_, ?_⟩
          · rw [← hpr, hAfter, hkeep.2.2.2.1, hcmp]
          · rw [← hpr, hAfter, hkeep.2.2.2.2]
          · rw [← hdb]
            apply totalEligible_congr
            · rw [(update_enrollment_progress_other_tables _ _ _).1]
            · rw [(update_enrollment_progress_other_tables _ _ _).2.1]
          · rw [← hdb,
              ← completedEligible_map_replace db (progressAfter old u true now) hpres]
            apply completedEligible_congr
            · rw [(update_enrollment_progress_other_tables _ _ _).1]
            · rw [(update_enrollment_progress_other_tables _ _ _).2.1]
            · rw [(update_enrollment_progress_other_tables _ _ _).2.2]

/-- C7 witness: on the fixture state after a first completion call, a second
call with `markCompleted = true` leaves the completed flag, the original
completion timestamp (tick 5, not the new tick 7) and both recalculation
counts unchanged; the first call on the fresh state sets the flag and
stamps tick 5. -/
theorem lesson_completion_idempotent_witness :
    (∃ dbOut pr, update_lesson_progress pDb0 1 1 noUpd true 5 = .ok (dbOut, pr) ∧
       pr.is_completed = true ∧ pr.completed_at = some 5) ∧
    (∃ dbOut pr, update_lesson_progress pDb1 1 1 noUpd true 7 = .ok (dbOut, pr) ∧
       pr.is_completed = true ∧ pr.completed_at = some 5 ∧
       totalEligible dbOut = totalEligible pDb1 ∧
       completedEligible dbOut = completedEligible pDb1) := by
  constructor
  · obtain ⟨dbOut, pr, hrun⟩ : ∃ dbOut pr,
        update_lesson_progress pDb0 1 1 noUpd true 5 = .ok (dbOut, pr) :=
      ⟨_, _, by with_unfolding_all rfl⟩
    have hc := (lesson_completion_idempotent pDb0 1 1 noUpd 5 dbOut pr
      (by decide) hrun).1 (by with_unfolding_all rfl)
    exact ⟨dbOut, pr, hrun, hc.1, hc.2⟩
  · obtain ⟨dbOut, pr, hrun⟩ : ∃ dbOut pr,
        update_lesson_progress pDb1 1 1 noUpd true 7 = .ok (dbOut, pr) :=
      ⟨_, _, by with_unfolding_all rfl⟩
    have hc := (lesson_completion_idempotent pDb1 1 1 noUpd 7 dbOut pr
      (by decide) hrun).2.2 prDone (by with_unfolding_all rfl) rfl
    exact ⟨dbOut, pr, hrun, hc.1, by rw [hc.2.1]; rfl, hc.2.2.1, hc.2.2.2⟩

/-- C8 counterexample: the claim as stated fails at a course whose
`enrollment_limit` is the reachable value 0.  The limit is defined
(`some 0`) and the count of active enrollments (0) has reached it, yet
`enroll_user` succeeds: the source guards the capacity check with Python
truthiness (`if course.enrollment_limit:`), which treats the limit 0 like no
limit at all. -/
theorem enroll_limit_zero_counterexample :
    (c8Db0.findCourse 1).map (fun c => c.enrollment_limit) = some (some 0) ∧
    c8Db0.activeEnrollmentCount 1 = 0 ∧
    isOkE (enroll_user c8Db0 1 1) = true := by
  with_unfolding_all decide

/-- C8 (amended): `enroll_user` fails with the already-enrolled error
whenever any enrollment row for the (student, course) pair exists, active or
not; fails with the limit-reached error when the course defines a *nonzero*
`enrollment_limit` and the count of active enrollments has reached it (a
limit of 0 is treated like no limit by the code's truthiness test); and
otherwise creates a new enrollment with status `enrolled`, progress
percentage 0, and `active = true`. -/
theorem enroll_user_contract (db : DB) (uid cid : Nat) :
    (∀ e0, db.anyEnrollment uid cid = some e0 →
       enroll_user db uid cid = .error ⟨400, "Already enrolled in this course"⟩) ∧
    (∀ c K, db.anyEnrollment uid cid = none → db.findCourse cid = some c →
       c.enrollment_limit = some K → K ≠ 0 →
       db.activeEnrollmentCount cid ≥ K →
       enroll_user db uid cid = .error ⟨400, "Course enrollment limit reached"⟩) ∧
    (∀ c, db.anyEnrollment uid cid = none → db.findCourse cid = some c →
       (∀ K, c.enrollment_limit = some K → K ≠ 0 →
          db.activeEnrollmentCount cid < K) →
       ∃ dbOut e1, enroll_user db uid cid = .ok (dbOut, e1) ∧
         e1.status = "enrolled" ∧ e1.progress_percentage = 0 ∧
         e1.is_active = true) := by
  refine ⟨?_, ?_, ?_⟩
  · intro e0 hany
    unfold enroll_user
    simp only [hany]
  · intro c K hany hc hK hKnz hcount
    unfold enroll_user
    simp only [hany, hc, hK]
    have hcond : (K != 0 && decide (db.activeEnrollmentCount cid ≥ K)) = true := by
      simp [hKnz, hcount]
    rw [if_pos hcond]
  · intro c hany hc hlim
    unfold enroll_user
    simp only [hany, hc]
    split
    · rename_i hcondT
      exfalso
      cases hK : c.enrollment_limit with
      | none => simp only [hK] at hcondT; exact absurd hcondT (by simp)
      | some K =>
        simp only [hK, Bool.and_eq_true, bne_iff_ne, decide_eq_true_eq] at hcondT
        exact absurd hcondT.2 (Nat.not_le.mpr (hlim K hK hcondT.1))
    · exact ⟨_, _, rfl, rfl, rfl, rfl⟩

/-- C8 witness: the duplicate enrollment is rejected with 400; a full course
(limit 1, one active enrollment) rejects the next student with the capacity
error; under a limit of 2 with one active enrollment the new student gets a
fresh `enrolled`, zero-progress, active enrollment. -/
theorem enroll_user_contract_witness :
    enroll_user zDb 1 1 = .error ⟨400, "Already enrolled in this course"⟩ ∧
    enroll_user c8DbFull 1 1 = .error ⟨400, "Course enrollment limit reached"⟩ ∧
    (∃ dbOut e1, enroll_user c8DbOk 1 1 = .ok (dbOut, e1) ∧
       e1.status = "enrolled" ∧ e1.progress_percentage = 0 ∧
       e1.is_active = true) := by
  refine ⟨?_, ?_, ?_⟩
  · exact (enroll_user_contract zDb 1 1).1 exEnr (by with_unfolding_all rfl)
  · exact (enroll_user_contract c8DbFull 1 1).2.1 ⟨1, some 1⟩ 1
      (by with_unfolding_all rfl) (by with_unfolding_all rfl) rfl
      (by decide) (by with_unfolding_all decide)
  · refine (enroll_user_contract c8DbOk 1 1).2.2 ⟨1, some 2⟩
      (by with_unfolding_all rfl) (by with_unfolding_all rfl) ?_
    intro K hK hK0
    have hK2 : K = 2 := by simpa using hK.symm
    subst hK2
    with_unfolding_all decide

/-- C9 counterexample: on a state where the lesson (uuid 11) exists but
student 2 has no enrollment at all, the lesson-completion endpoint fails
with HTTP status 404 (`"Enrollment not found"`), not with 403 as the claim
states. -/
theorem not_enrolled_status_counterexample :
    errStatus (complete_lesson p9Db 2 11 none 5) ≠ some 403 ∧
    complete_lesson p9Db 2 11 none 5 =
      .error ⟨404, "Enrollment not found"⟩ := by
  with_unfolding_all decide

/-- C9 (amended): the lesson-completion endpoint surfaces a missing active
enrollment as HTTP 404 `"Enrollment not found"` — the same status class an
unknown lesson yields (404 `"Lesson not found"`) — not as 403. -/
theorem not_enrolled_surfaced_as_404 (db : DB) (uid uuidv : Nat)
    (pd : Option LessonProgressUpdate) (now : Nat) :
    (db.findLessonByUuid uuidv = none →
      complete_lesson db uid uuidv pd now = .error ⟨404, "Lesson not found"⟩) ∧
    (∀ lesson m, db.findLessonByUuid uuidv = some lesson →
      db.findLesson lesson.id = some lesson →
      db.findModule lesson.module_id = some m →
      db.activeEnrollment uid m.course_id = none →
      complete_lesson db uid uuidv pd now =
        .error ⟨404, "Enrollment not found"⟩) := by
  constructor
  · intro hn
    unfold complete_lesson
    simp only [hn]
  · intro lesson m hl hfid hm hne
    unfold complete_lesson
    simp only [hl]
    unfold update_lesson_progress
    simp only [hfid, hm, hne]

/-- C9 witness: unknown lesson uuid 99 yields 404 "Lesson not found"; the
existing lesson uuid 11 without an enrollment yields 404
"Enrollment not found". -/
theorem not_enrolled_surfaced_as_404_witness :
    complete_lesson p9Db 2 99 none 5 = .error ⟨404, "Lesson not found"⟩ ∧
    complete_lesson p9Db 2 11 none 5 =
      .error ⟨404, "Enrollment not found"⟩ := by
  constructor
  · exact (not_enrolled_surfaced_as_404 p9Db 2 99 none 5).1
      (by with_unfolding_all rfl)
  · exact (not_enrolled_surfaced_as_404 p9Db 2 11 none 5).2 exLesson1 exMod
      (by with_unfolding_all rfl) (by with_unfolding_all rfl)
      (by with_unfolding_all rfl) (by with_unfolding_all rfl)

end Sudan
